import Mathlib

/-!
Shallow embedding of the `hr_employee_appraisal` Odoo module.

Python floats are modelled as exact rationals (`ℚ`); Odoo `Char` fields as
`String`; selection fields as inductive types; many2one references as the
referenced record (or `Option` of it); one2many line sets as lists; raised
`UserError` / `ValidationError` as `Except String`.

Sources embedded here:
- `src/models/hr_appraisal_okr_line.py`      (class HrAppraisalOKRLine)
- `src/models/hr_appraisal_ninebox_line.py`  (classes HrAppraisalNineboxPerformanceLine / PotentialLine)
- `src/models/appraisal_criteria_data.py`    (class AppraisalCriteriaData)
- `src/models/hr_appraisal_inherit.py`       (class HrAppraisal, inherited)
-/

namespace HrAppraisal

/-- Selection values of the `line_type` field on criteria lines. -/
inductive LineType
  | department
  | role
  | common
deriving DecidableEq, Repr

/-- Selection values of the `priority` field on criteria lines. -/
inductive Priority
  | high
  | medium
  | low
deriving DecidableEq, Repr

/-- Selection values of the `metric` field on criteria lines. -/
inductive Metric
  | percentage
  | count
  | rating
  | score
deriving DecidableEq, Repr

/-- Selection labels of `line_type`, as in the field declaration
`fields.Selection([('department', 'Department'), ...])`. -/
def LineType.label : LineType → String
  | .department => "Department"
  | .role => "Role"
  | .common => "Common"

/-- Selection labels of `priority`. -/
def Priority.label : Priority → String
  | .high => "High"
  | .medium => "Medium"
  | .low => "Low"

/-- Selection labels of `metric`. -/
def Metric.label : Metric → String
  | .percentage => "Percentage (%)"
  | .count => "Count (Numeric)"
  | .rating => "Rating (Scale)"
  | .score => "Score (Points)"

/-- An `oh.appraisal.team` record (id, name, member employee ids). -/
structure Team where
  id : Nat
  name : String
  member_ids : List Nat
deriving DecidableEq, Repr

/-- A `hr.appraisal.okr.line` record (file `hr_appraisal_okr_line.py`).
The `appraisal_id` back reference is implicit (lines live inside their
appraisal record below); `team_id` is the referenced team record. -/
structure OkrLine where
  sequence : Int
  line_type : LineType
  objective_breakdown : String
  priority : Option Priority
  metric : Option Metric
  target_value : ℚ
  target_unit : Option String
  actual_value : ℚ
  actual_unit : Option String
  weightage : ℚ
  team : Option Team
deriving DecidableEq, Repr

/-- `HrAppraisalOKRLine._compute_achievement`:
`if line.target_value > 0: achievement = (actual / target) * 100 else 0.0`. -/
def OkrLine.achievement_percentage (l : OkrLine) : ℚ :=
  if l.target_value > 0 then l.actual_value / l.target_value * 100 else 0

/-- `HrAppraisalOKRLine._compute_weighted_score`:
`weighted_score = (achievement_percentage / 100.0) * weightage`. -/
def OkrLine.weighted_score (l : OkrLine) : ℚ :=
  l.achievement_percentage / 100 * l.weightage

/-- `HrAppraisalOKRLine._check_weightage`: raises ValidationError when
`weightage < 0 or weightage > 100`. -/
def OkrLine.check_weightage (l : OkrLine) : Except String Unit :=
  if l.weightage < 0 ∨ l.weightage > 100 then
    Except.error "Weightage must be between 0 and 100"
  else
    Except.ok ()

/-- A `hr.appraisal.ninebox.performance.line` record
(file `hr_appraisal_ninebox_line.py`, first class). -/
structure NineboxPerformanceLine where
  sequence : Int
  line_type : LineType
  objective_breakdown : String
  priority : Option Priority
  metric : Option Metric
  target_value : ℚ
  actual_value : ℚ
  weightage : ℚ
  team : Option Team
deriving DecidableEq, Repr

/-- `HrAppraisalNineboxPerformanceLine._compute_achievement`. -/
def NineboxPerformanceLine.achievement_percentage (l : NineboxPerformanceLine) : ℚ :=
  if l.target_value > 0 then l.actual_value / l.target_value * 100 else 0

/-- `HrAppraisalNineboxPerformanceLine._compute_weighted_score`. -/
def NineboxPerformanceLine.weighted_score (l : NineboxPerformanceLine) : ℚ :=
  l.achievement_percentage / 100 * l.weightage

/-- The 9-box performance line class declares no `_check_weightage`
constraint (no `@api.constrains` at all), so persisting a record runs no
weightage validation: the outcome is success for every weightage. -/
def NineboxPerformanceLine.check_weightage (_ : NineboxPerformanceLine) : Except String Unit :=
  Except.ok ()

/-- A `hr.appraisal.ninebox.potential.line` record
(file `hr_appraisal_ninebox_line.py`, second class; its field and compute
definitions are textually identical to the performance class). -/
structure NineboxPotentialLine where
  sequence : Int
  line_type : LineType
  objective_breakdown : String
  priority : Option Priority
  metric : Option Metric
  target_value : ℚ
  actual_value : ℚ
  weightage : ℚ
  team : Option Team
deriving DecidableEq, Repr

/-- `HrAppraisalNineboxPotentialLine._compute_achievement`. -/
def NineboxPotentialLine.achievement_percentage (l : NineboxPotentialLine) : ℚ :=
  if l.target_value > 0 then l.actual_value / l.target_value * 100 else 0

/-- `HrAppraisalNineboxPotentialLine._compute_weighted_score`. -/
def NineboxPotentialLine.weighted_score (l : NineboxPotentialLine) : ℚ :=
  l.achievement_percentage / 100 * l.weightage

/-- The 9-box potential line class likewise declares no `_check_weightage`
constraint: persisting runs no weightage validation. -/
def NineboxPotentialLine.check_weightage (_ : NineboxPotentialLine) : Except String Unit :=
  Except.ok ()

/-- Selection values of `criteria_type` on `appraisal.criteria.data`. -/
inductive CriteriaType
  | okr_dept
  | okr_role
  | okr_common
  | ninebox_perf_dept
  | ninebox_perf_role
  | ninebox_perf_common
  | ninebox_pot_dept
  | ninebox_pot_role
  | ninebox_pot_common
deriving DecidableEq, Repr

/-- An `appraisal.criteria.data` record (file `appraisal_criteria_data.py`).
`priority` and `metric` are plain Char fields on this model. -/
structure CriteriaData where
  sequence : Int
  objective_breakdown : String
  priority : String
  metric : String
  target_value : ℚ
  actual_value : ℚ
  weightage : ℚ
  team_name : String
  criteria_type : CriteriaType
deriving DecidableEq, Repr

/-- `AppraisalCriteriaData._compute_achievement`. -/
def CriteriaData.achievement_percentage (c : CriteriaData) : ℚ :=
  if c.target_value > 0 then c.actual_value / c.target_value * 100 else 0

/-- `AppraisalCriteriaData._check_weightage`: raises ValidationError when
`weightage < 0 or weightage > 100`. -/
def CriteriaData.check_weightage (c : CriteriaData) : Except String Unit :=
  if c.weightage < 0 ∨ c.weightage > 100 then
    Except.error "Weightage must be between 0 and 100"
  else
    Except.ok ()

/-- Selection values of `appraisal_template_type` (default `survey`). -/
inductive TemplateType
  | survey
  | okr
  | ninebox
deriving DecidableEq, Repr

/-- Selection values of `performance_rating`
(five bands of `_compute_performance_rating`). -/
inductive Rating
  | unsatisfactory
  | needs_improvement
  | meets
  | exceeds
  | outstanding
deriving DecidableEq, Repr

/-- Numeric height of a rating band, used to state monotonicity. -/
def Rating.height : Rating → Nat
  | .unsatisfactory => 0
  | .needs_improvement => 1
  | .meets => 2
  | .exceeds => 3
  | .outstanding => 4

/-- `HrAppraisal._compute_performance_rating` as a function of the final
score: the if/elif ladder over `final_score`. -/
def compute_performance_rating (final_score : ℚ) : Rating :=
  if final_score ≥ 90 then .outstanding
  else if final_score ≥ 75 then .exceeds
  else if final_score ≥ 60 then .meets
  else if final_score ≥ 40 then .needs_improvement
  else .unsatisfactory

/-- An `appraisal.evaluation.type` record (file `appraisal_evaluation_type.py`);
its `code` selection has the same three values as `line_type`. -/
structure EvalType where
  name : String
  code : LineType
deriving DecidableEq, Repr

/-- A key-result line of an `oh.appraisal.okr.template`, with the fields read
by `_load_okr_criteria` (`key_objective_breakdown` is the text of the
referenced objective-item record, when set). -/
structure OkrKeyResult where
  team : Team
  key_objective_breakdown : Option String
  breakdown_priority : Option Priority
  metric : Option Metric
  target_value : ℚ
  target_unit : Option String
  actual_value : ℚ
  actual_unit : Option String
  distributed_weightage : ℚ
deriving DecidableEq, Repr

/-- An `oh.appraisal.okr.template` record with its key-result line sets. -/
structure OkrTemplate where
  id : Nat
  active : Bool
  department_key_result_ids : List OkrKeyResult
  role_key_result_ids : List OkrKeyResult
  common_key_result_ids : List OkrKeyResult
deriving DecidableEq, Repr

/-- A criteria line of an `oh.appraisal.ninebox.template`, with the fields
read by `_load_ninebox_criteria`. -/
structure NineboxTemplateLine where
  team : Team
  objective_breakdown : String
  priority : Option Priority
  metric : Option Metric
  target_value : ℚ
  actual_value : ℚ
  distributed_weightage : ℚ
deriving DecidableEq, Repr

/-- An `oh.appraisal.ninebox.template` record with its six line sets. -/
structure NineboxTemplate where
  id : Nat
  active : Bool
  performance_dept_line_ids : List NineboxTemplateLine
  performance_role_line_ids : List NineboxTemplateLine
  performance_common_line_ids : List NineboxTemplateLine
  potential_dept_line_ids : List NineboxTemplateLine
  potential_role_line_ids : List NineboxTemplateLine
  potential_common_line_ids : List NineboxTemplateLine
deriving DecidableEq, Repr

/-- An `oh.appraisal.okr.weightage` row: it links a team to an OKR template
(the template reference is embedded as the record it points to). -/
structure OkrWeightage where
  team_id : Nat
  okr_template : OkrTemplate
deriving DecidableEq, Repr

/-- The `type` selection of `oh.appraisal.ninebox.weightage`. -/
inductive NineType
  | performance
  | potential
deriving DecidableEq, Repr

/-- An `oh.appraisal.ninebox.weightage` row (`wtype` models its `type`
selection field). -/
structure NineboxWeightage where
  team_id : Nat
  template : NineboxTemplate
  wtype : NineType
deriving DecidableEq, Repr

/-- An `employee.badge` record. -/
structure Badge where
  id : Nat
  employee_id : Nat
deriving DecidableEq, Repr

/-- An `hr.employee` record (only the fields this module reads). -/
structure Employee where
  id : Nat
  barcode : Option String
deriving DecidableEq, Repr

/-- The database environment searched through `self.env[...]`. -/
structure World where
  teams : List Team
  okr_weightages : List OkrWeightage
  ninebox_weightages : List NineboxWeightage
  badges : List Badge
  employees : List Employee

/-- An `hr.appraisal` record with the fields added by `hr_appraisal_inherit.py`.
Many2one template references hold the referenced record; computed fields
(`employee_team_ids`, scores, rating, available templates) are modelled as
functions of the record below. -/
structure Appraisal where
  employee_id : Option Nat
  employee_badge_id : Option Nat
  appraisal_template_type : TemplateType
  appraisal_group_id : Option String
  evaluation_type_ids : List EvalType
  okr_template_id : Option OkrTemplate
  ninebox_template_id : Option NineboxTemplate
  survey_id : Option Nat
  okr_line_ids : List OkrLine
  ninebox_performance_line_ids : List NineboxPerformanceLine
  ninebox_potential_line_ids : List NineboxPotentialLine
  criteria_loaded : Bool
  okr_criteria_loaded : Bool
  ninebox_criteria_loaded : Bool
deriving DecidableEq, Repr

/-- `HrAppraisal._compute_total_scores`, OKR part:
`sum(okr_line_ids.mapped('weighted_score'))`. -/
def Appraisal.total_okr_score (a : Appraisal) : ℚ :=
  (a.okr_line_ids.map OkrLine.weighted_score).sum

/-- `HrAppraisal._compute_total_scores`, performance part. -/
def Appraisal.total_performance_score (a : Appraisal) : ℚ :=
  (a.ninebox_performance_line_ids.map NineboxPerformanceLine.weighted_score).sum

/-- `HrAppraisal._compute_total_scores`, potential part. -/
def Appraisal.total_potential_score (a : Appraisal) : ℚ :=
  (a.ninebox_potential_line_ids.map NineboxPotentialLine.weighted_score).sum

/-- `HrAppraisal._compute_final_score`: OKR total for OKR appraisals, the
performance/potential average for 9-box (the Python truthiness test
`if perf or pot` becomes a disequality test), else `0.0`. -/
def Appraisal.final_score (a : Appraisal) : ℚ :=
  if a.appraisal_template_type = .okr then a.total_okr_score
  else if a.appraisal_template_type = .ninebox then
    if a.total_performance_score ≠ 0 ∨ a.total_potential_score ≠ 0 then
      (a.total_performance_score + a.total_potential_score) / 2
    else 0
  else 0

/-- `HrAppraisal._compute_performance_rating` on the record. -/
def Appraisal.performance_rating (a : Appraisal) : Rating :=
  compute_performance_rating a.final_score

/-- `HrAppraisal._compute_employee_teams`: the teams whose `member_ids`
contain the selected employee (empty when no employee is selected). -/
def Appraisal.employee_team_ids (w : World) (a : Appraisal) : List Team :=
  match a.employee_id with
  | some e => w.teams.filter (fun t => decide (e ∈ t.member_ids))
  | none => []

/-- `HrAppraisal._compute_available_templates`, OKR part: templates whose
weightage rows reference one of the employee teams, deduplicated (recordset
`mapped` on a many2one deduplicates) and filtered on `active`. -/
def Appraisal.available_okr_template_ids (w : World) (a : Appraisal) : List OkrTemplate :=
  if a.employee_id.isSome then
    let teamIds := (a.employee_team_ids w).map Team.id
    if teamIds ≠ [] then
      (((w.okr_weightages.filter (fun x => decide (x.team_id ∈ teamIds))).map
          OkrWeightage.okr_template).dedup).filter OkrTemplate.active
    else []
  else []

/-- `HrAppraisal._compute_available_templates`, 9-box part: the union of
templates of performance-typed and potential-typed weightage rows for the
employee teams, filtered on `active`. -/
def Appraisal.available_ninebox_template_ids (w : World) (a : Appraisal) : List NineboxTemplate :=
  if a.employee_id.isSome then
    let teamIds := (a.employee_team_ids w).map Team.id
    if teamIds ≠ [] then
      let perf := w.ninebox_weightages.filter
        (fun x => decide (x.team_id ∈ teamIds) && decide (x.wtype = .performance))
      let pot := w.ninebox_weightages.filter
        (fun x => decide (x.team_id ∈ teamIds) && decide (x.wtype = .potential))
      (((perf.map NineboxWeightage.template) ++ (pot.map NineboxWeightage.template)).dedup).filter
        NineboxTemplate.active
    else []
  else []

/-- `has_okr_templates` (`bool(okr_templates)`). -/
def Appraisal.has_okr_templates (w : World) (a : Appraisal) : Bool :=
  !(a.available_okr_template_ids w).isEmpty

/-- `has_ninebox_templates` (`bool(ninebox_templates)`). -/
def Appraisal.has_ninebox_templates (w : World) (a : Appraisal) : Bool :=
  !(a.available_ninebox_template_ids w).isEmpty

/-- `HrAppraisal._auto_detect_templates`: when only one family of templates
is available and it has exactly one member, select it and set the type. -/
def Appraisal.auto_detect_templates (w : World) (a : Appraisal) : Appraisal :=
  if a.employee_id = none then a
  else
    let okr := a.available_okr_template_ids w
    let nb := a.available_ninebox_template_ids w
    if a.has_okr_templates w ∧ ¬a.has_ninebox_templates w then
      if okr.length = 1 then
        { a with okr_template_id := okr.head?, appraisal_template_type := .okr }
      else a
    else if a.has_ninebox_templates w ∧ ¬a.has_okr_templates w then
      if nb.length = 1 then
        { a with ninebox_template_id := nb.head?, appraisal_template_type := .ninebox }
      else a
    else a

/-- `HrAppraisal._clear_template_selections`: a no-op unless called with the
`clear_all_templates` context flag; with it, clears template selections,
evaluation types, all three criteria line sets and all three loaded flags,
and falls back to the survey type. -/
def Appraisal.clear_template_selections (clear_all_templates : Bool) (a : Appraisal) : Appraisal :=
  if clear_all_templates then
    { a with
      okr_template_id := none
      ninebox_template_id := none
      survey_id := none
      evaluation_type_ids := []
      okr_line_ids := []
      ninebox_performance_line_ids := []
      ninebox_potential_line_ids := []
      criteria_loaded := false
      okr_criteria_loaded := false
      ninebox_criteria_loaded := false
      appraisal_template_type :=
        if a.appraisal_template_type = .okr ∨ a.appraisal_template_type = .ninebox then
          .survey
        else a.appraisal_template_type }
  else a

/-- The `barcode` of an employee record, as read by
`self.employee_id.barcode`. -/
def World.employeeBarcode (w : World) (e : Nat) : Option String :=
  (w.employees.find? (fun x => decide (x.id = e))).bind Employee.barcode

/-- `HrAppraisal._onchange_employee_id_badge` (runs when `employee_id`
changes): sync the badge dropdown, then clear template selections with
`clear_all_templates` set, then auto-detect templates. -/
def Appraisal.onchange_employee_id_badge (w : World) (a : Appraisal) : Appraisal :=
  let a1 :=
    match a.employee_id with
    | some e =>
      if (w.employeeBarcode e).getD "" ≠ "" then
        { a with employee_badge_id :=
            (w.badges.find? (fun (b : Badge) => decide (b.employee_id = e))).map Badge.id }
      else a
    | none => { a with employee_badge_id := none }
  let a2 := a1.clear_template_selections true
  a2.auto_detect_templates w

/-- `HrAppraisal._onchange_evaluation_type_ids` (runs when
`evaluation_type_ids` changes): when criteria were loaded and the record had
evaluation types before the change, clear the loaded criteria of the current
template type and reset `criteria_loaded`. -/
def Appraisal.onchange_evaluation_type_ids
    (origin_evaluation_type_ids : List EvalType) (a : Appraisal) : Appraisal :=
  if a.criteria_loaded ∧ origin_evaluation_type_ids ≠ [] then
    let a1 :=
      if a.appraisal_template_type = .okr then
        { a with okr_line_ids := [], okr_criteria_loaded := false }
      else if a.appraisal_template_type = .ninebox then
        { a with
          ninebox_performance_line_ids := []
          ninebox_potential_line_ids := []
          ninebox_criteria_loaded := false }
      else a
    { a1 with criteria_loaded := false }
  else a

/-- The key-result list of an OKR template for an evaluation-type code
(the three-way branch of `_load_okr_criteria`). -/
def OkrTemplate.keyResultsFor (t : OkrTemplate) : LineType → List OkrKeyResult
  | .department => t.department_key_result_ids
  | .role => t.role_key_result_ids
  | .common => t.common_key_result_ids

/-- The values dict `_load_okr_criteria` builds for one key result
(`kr.actual_value or 0.0` equals `kr.actual_value`, since a float is falsy
exactly when it is `0.0`). -/
def okrLineOfKeyResult (seq : Nat) (code : LineType) (kr : OkrKeyResult) : OkrLine :=
  { sequence := seq
    line_type := code
    objective_breakdown := kr.key_objective_breakdown.getD ""
    priority := kr.breakdown_priority
    metric := kr.metric
    target_value := kr.target_value
    target_unit := kr.target_unit
    actual_value := kr.actual_value
    actual_unit := kr.actual_unit
    weightage := kr.distributed_weightage
    team := some kr.team }

/-- Python `enumerate(xs, start=k)`. -/
def enumFrom {α : Type} (k : Nat) : List α → List (Nat × α)
  | [] => []
  | a :: t => (k, a) :: enumFrom (k + 1) t

/-- The line-building loop of `_load_okr_criteria`: for each selected
evaluation type, the matching key results filtered on the employee teams,
with one running `sequence` counter starting at 1. -/
def load_okr_lines (tmpl : OkrTemplate) (teams : List Team) :
    Nat → List EvalType → List OkrLine
  | _, [] => []
  | seq, et :: rest =>
    let krs := (tmpl.keyResultsFor et.code).filter (fun kr => decide (kr.team ∈ teams))
    ((enumFrom seq krs).map (fun p => okrLineOfKeyResult p.1 et.code p.2))
      ++ load_okr_lines tmpl teams (seq + krs.length) rest

/-- `HrAppraisal._load_okr_criteria`: raises without evaluation types,
otherwise replaces `okr_line_ids` with the lines built from the selected
template (an unset template contributes no key results). -/
def Appraisal.load_okr_criteria (w : World) (a : Appraisal) : Except String Appraisal :=
  if a.evaluation_type_ids = [] then
    Except.error "Please select at least one Evaluation Type first."
  else
    let newLines :=
      match a.okr_template_id with
      | some tmpl => load_okr_lines tmpl (a.employee_team_ids w) 1 a.evaluation_type_ids
      | none => []
    Except.ok { a with okr_line_ids := newLines }

/-- The performance line list of a 9-box template for an evaluation-type
code. -/
def NineboxTemplate.performanceLinesFor (t : NineboxTemplate) : LineType → List NineboxTemplateLine
  | .department => t.performance_dept_line_ids
  | .role => t.performance_role_line_ids
  | .common => t.performance_common_line_ids

/-- The potential line list of a 9-box template for an evaluation-type
code. -/
def NineboxTemplate.potentialLinesFor (t : NineboxTemplate) : LineType → List NineboxTemplateLine
  | .department => t.potential_dept_line_ids
  | .role => t.potential_role_line_ids
  | .common => t.potential_common_line_ids

/-- The values dict `_load_ninebox_criteria` builds for one performance
line. -/
def perfLineOfTemplateLine (seq : Nat) (code : LineType) (l : NineboxTemplateLine) :
    NineboxPerformanceLine :=
  { sequence := seq
    line_type := code
    objective_breakdown := l.objective_breakdown
    priority := l.priority
    metric := l.metric
    target_value := l.target_value
    actual_value := l.actual_value
    weightage := l.distributed_weightage
    team := some l.team }

/-- The values dict `_load_ninebox_criteria` builds for one potential
line. -/
def potLineOfTemplateLine (seq : Nat) (code : LineType) (l : NineboxTemplateLine) :
    NineboxPotentialLine :=
  { sequence := seq
    line_type := code
    objective_breakdown := l.objective_breakdown
    priority := l.priority
    metric := l.metric
    target_value := l.target_value
    actual_value := l.actual_value
    weightage := l.distributed_weightage
    team := some l.team }

/-- The performance-line loop of `_load_ninebox_criteria` (the `sequence`
counter restarts at 1 for every evaluation type). -/
def load_ninebox_perf_lines (tmpl : NineboxTemplate) (teams : List Team) :
    List EvalType → List NineboxPerformanceLine
  | [] => []
  | et :: rest =>
    let ls := (tmpl.performanceLinesFor et.code).filter (fun l => decide (l.team ∈ teams))
    ((enumFrom 1 ls).map (fun p => perfLineOfTemplateLine p.1 et.code p.2))
      ++ load_ninebox_perf_lines tmpl teams rest

/-- The potential-line loop of `_load_ninebox_criteria`. -/
def load_ninebox_pot_lines (tmpl : NineboxTemplate) (teams : List Team) :
    List EvalType → List NineboxPotentialLine
  | [] => []
  | et :: rest =>
    let ls := (tmpl.potentialLinesFor et.code).filter (fun l => decide (l.team ∈ teams))
    ((enumFrom 1 ls).map (fun p => potLineOfTemplateLine p.1 et.code p.2))
      ++ load_ninebox_pot_lines tmpl teams rest

/-- `HrAppraisal._load_ninebox_criteria`. -/
def Appraisal.load_ninebox_criteria (w : World) (a : Appraisal) : Except String Appraisal :=
  if a.evaluation_type_ids = [] then
    Except.error "Please select at least one Evaluation Type first."
  else
    let teams := a.employee_team_ids w
    let newPerf :=
      match a.ninebox_template_id with
      | some tmpl => load_ninebox_perf_lines tmpl teams a.evaluation_type_ids
      | none => []
    let newPot :=
      match a.ninebox_template_id with
      | some tmpl => load_ninebox_pot_lines tmpl teams a.evaluation_type_ids
      | none => []
    Except.ok { a with
      ninebox_performance_line_ids := newPerf
      ninebox_potential_line_ids := newPot }

/-- `HrAppraisal.action_load_criteria`: validates employee, evaluation types
and a template matching the selected type, loads the criteria, sets the
loaded flags, and fills `appraisal_group_id` when unset (`fresh_group_id`
stands for the generated `uuid4`; the returned client reload action is
dropped). -/
def Appraisal.action_load_criteria (w : World) (fresh_group_id : String) (a : Appraisal) :
    Except String Appraisal :=
  if a.employee_id = none then
    Except.error "Please select an employee first."
  else if a.evaluation_type_ids = [] then
    Except.error "Please select at least one Evaluation Type."
  else if a.appraisal_template_type = .okr ∧ a.okr_template_id ≠ none then
    match a.load_okr_criteria w with
    | Except.error e => Except.error e
    | Except.ok a1 =>
      let a2 := { a1 with okr_criteria_loaded := true, criteria_loaded := true }
      Except.ok { a2 with appraisal_group_id :=
        if a2.appraisal_group_id.getD "" = "" then some fresh_group_id
        else a2.appraisal_group_id }
  else if a.appraisal_template_type = .ninebox ∧ a.ninebox_template_id ≠ none then
    match a.load_ninebox_criteria w with
    | Except.error e => Except.error e
    | Except.ok a1 =>
      let a2 := { a1 with ninebox_criteria_loaded := true, criteria_loaded := true }
      Except.ok { a2 with appraisal_group_id :=
        if a2.appraisal_group_id.getD "" = "" then some fresh_group_id
        else a2.appraisal_group_id }
  else
    Except.error "Please select a template first."

/-! ## Spreadsheet model

Cell references `f"{col}{row}"` are modelled as the pair (column letters,
row number); since column letters contain no digits, the pair determines the
reference string uniquely and conversely. A sheet's `cells` dict is an
association list with distinct keys (the generators below write each
reference once), looked up with `find?`. -/

/-- A cell reference: column letters and row number. -/
abbrev CellRef := String × Nat

/-- A cell dict as produced and consumed by this module: optional
`content`, `style` and `format` entries. -/
structure Cell where
  content : Option String
  style : Option Nat
  format : Option Nat
deriving DecidableEq, Repr

/-- A cell dict with `content` and `style`. -/
def mkCell (content : String) (style : Nat) : Cell :=
  { content := some content, style := some style, format := none }

/-- A cell dict with `content`, `style` and `'format': 1`. -/
def mkNumCell (content : String) (style : Nat) : Cell :=
  { content := some content, style := some style, format := some 1 }

/-- One sheet of the spreadsheet JSON payload. -/
structure Sheet where
  id : String
  name : String
  colNumber : Nat
  rowNumber : Nat
  cells : List (CellRef × Cell)
deriving DecidableEq, Repr

/-- The spreadsheet JSON payload. The constant `styles`, `formats`,
`borders` and `settings` dictionaries are not modelled: the sync functions
never read them. -/
structure SpreadsheetData where
  version : Nat
  sheets : List Sheet
  revisionId : String
deriving DecidableEq, Repr

/-! ## Python number formatting and parsing (`str(round(x, 2))`, `float`) -/

/-- `chr(48 + d)` for a decimal digit value. -/
def digitCh : Nat → Char
  | 0 => '0'
  | 1 => '1'
  | 2 => '2'
  | 3 => '3'
  | 4 => '4'
  | 5 => '5'
  | 6 => '6'
  | 7 => '7'
  | 8 => '8'
  | _ => '9'

/-- Decimal digit character test (`'0'` to `'9'`). -/
def isDigitCh (c : Char) : Bool :=
  48 ≤ c.toNat && c.toNat ≤ 57

/-- Value of a decimal digit character. -/
def digitVal (c : Char) : Nat :=
  c.toNat - 48

/-- Python whitespace characters stripped by `float`. -/
def isSpaceCh (c : Char) : Bool :=
  c = ' ' || c = '\t' || c = '\n' || c = '\r' || c = '\x0b' || c = '\x0c'

/-- Big-endian decimal digits of `n` (empty for 0); the first argument is
recursion fuel, instantiated with `n` itself. -/
def natDigitsAux : Nat → Nat → List Char
  | 0, _ => []
  | fuel + 1, n => if n = 0 then [] else natDigitsAux fuel (n / 10) ++ [digitCh (n % 10)]

/-- The decimal string of a natural number, as Python renders integers. -/
def natStr (n : Nat) : List Char :=
  if n = 0 then ['0'] else natDigitsAux n n

/-- The fractional digits Python `str` prints for a float that is an exact
multiple of 1/100, given its fraction `f ∈ [0, 100)` in hundredths: the
shortest repr drops a trailing zero (`str(5.6)` is `"5.6"`, `str(5.0)` is
`"5.0"`, `str(5.68)` is `"5.68"`). -/
def fracStr (f : Nat) : List Char :=
  if f % 10 = 0 then [digitCh (f / 10)] else [digitCh (f / 10), digitCh (f % 10)]

/-- Round to the nearest integer, ties to even — the rounding of Python's
`round`. -/
def roundHalfEven (q : ℚ) : ℤ :=
  let f := ⌊q⌋
  if q - f < 1 / 2 then f
  else if q - f > 1 / 2 then f + 1
  else if f % 2 = 0 then f else f + 1

/-- `round(q, 2)` scaled by 100: the integer of hundredths. -/
def rnd2 (q : ℚ) : ℤ :=
  roundHalfEven (100 * q)

/-- `round(q, 2)` as a rational. -/
def round2q (q : ℚ) : ℚ :=
  (rnd2 q : ℚ) / 100

/-- The characters of `str(round(q, 2))`: optional minus sign, integer
digits, point, one or two fraction digits. -/
def formatRound2 (q : ℚ) : List Char :=
  let n := rnd2 q
  let mantissa := natStr (n.natAbs / 100) ++ '.' :: fracStr (n.natAbs % 100)
  if n < 0 then '-' :: mantissa else mantissa

/-- `str(round(q, 2))`. -/
def formatRound2Str (q : ℚ) : String :=
  String.mk (formatRound2 q)

/-- Numeric value of a big-endian digit character list. -/
def digitsVal (l : List Char) : Nat :=
  l.foldl (fun a c => 10 * a + digitVal c) 0

/-- Parse the unsigned mantissa of a decimal literal: digits, optionally
followed by a point and more digits; at least one digit overall. Returns
the value and the unconsumed rest. -/
def parseUnsigned (cs : List Char) : Option (ℚ × List Char) :=
  let ip := cs.takeWhile isDigitCh
  let r1 := cs.dropWhile isDigitCh
  if r1.head? = some '.' then
    let r2 := r1.tail
    let fp := r2.takeWhile isDigitCh
    let r3 := r2.dropWhile isDigitCh
    if ip.isEmpty && fp.isEmpty then none
    else some ((digitsVal ip : ℚ) + (digitsVal fp : ℚ) / 10 ^ fp.length, r3)
  else
    if ip.isEmpty then none else some ((digitsVal ip : ℚ), r1)

/-- Parse an optional exponent part `e`/`E`, optional sign, digits. -/
def parseExponent (cs : List Char) : Option (ℤ × List Char) :=
  if cs.head? = some 'e' ∨ cs.head? = some 'E' then
    let r := cs.tail
    let sgn : ℤ := if r.head? = some '-' then -1 else 1
    let r1 : List Char := if r.head? = some '-' ∨ r.head? = some '+' then r.tail else r
    let ds := r1.takeWhile isDigitCh
    if ds.isEmpty then none
    else some (sgn * (digitsVal ds : ℤ), r1.dropWhile isDigitCh)
  else some (0, cs)

/-- Python `float(s)` on a stripped character list: optional sign, decimal
mantissa, optional exponent, nothing left over. (`inf`, `nan` and digit
group underscores are not modelled; no cell content this module produces or
the claims mention uses them.) -/
def pyFloatCore (cs : List Char) : Option ℚ :=
  let sgn : ℚ := if cs.head? = some '-' then -1 else 1
  let r0 : List Char := if cs.head? = some '-' ∨ cs.head? = some '+' then cs.tail else cs
  match parseUnsigned r0 with
  | none => none
  | some (m, r1) =>
    match parseExponent r1 with
    | none => none
    | some (e, r2) =>
      if r2.isEmpty then some (sgn * m * (10 : ℚ) ^ e) else none

/-- Python `float(s)`: strip surrounding whitespace, then parse. -/
def pyFloat (s : String) : Option ℚ :=
  pyFloatCore (((s.data.dropWhile isSpaceCh).reverse.dropWhile isSpaceCh).reverse)

/-! ## Spreadsheet generation (`_generate_okr_spreadsheet`) -/

/-- `HrAppraisal._number_to_column`: `while n >= 0: result = chr(65 + n%26)
+ result; n = n//26 - 1`. The loop runs at most `n + 1` times, used as
fuel. -/
def numberToColumnAux : Nat → Int → String
  | 0, _ => ""
  | fuel + 1, n =>
    if n < 0 then ""
    else numberToColumnAux fuel (n / 26 - 1) ++ String.mk [Char.ofNat (65 + (n % 26)).toNat]

/-- `HrAppraisal._number_to_column` on a column index. -/
def numberToColumn (n : Nat) : String :=
  numberToColumnAux (n + 1) n

/-- The header titles of the OKR sheet. -/
def okrHeaders : List String :=
  ["Seq", "Type", "Objective", "Priority", "Metric", "Target", "Actual",
   "Achievement %", "Weightage %", "Team"]

/-- The header row cells (`for col_idx, header in enumerate(headers)`). -/
def okrHeaderCells : List (CellRef × Cell) :=
  (enumFrom 0 okrHeaders).map (fun p => ((numberToColumn p.1, 1), mkCell p.2 1))

/-- The Achievement % formula of row `r`:
`=IF(F{r}>0, G{r}/F{r}*100, 0)`. -/
def okrFormulaH (r : Nat) : String :=
  "=IF(F" ++ toString r ++ ">0, G" ++ toString r ++ "/F" ++ toString r ++ "*100, 0)"

/-- The ten cells `_generate_okr_spreadsheet` writes for one data row:
locked text/number cells, the editable Actual cell `G` holding
`str(round(actual_value, 2))`, and the formula cell `H`. -/
def okrRowCells (r : Nat) (l : OkrLine) : List (CellRef × Cell) :=
  [(("A", r), mkCell (toString l.sequence) 3),
   (("B", r), mkCell l.line_type.label 3),
   (("C", r), mkCell l.objective_breakdown 3),
   (("D", r), mkCell ((l.priority.map Priority.label).getD "") 3),
   (("E", r), mkCell ((l.metric.map Metric.label).getD "") 3),
   (("F", r), mkNumCell (formatRound2Str l.target_value) 3),
   (("G", r), mkNumCell (formatRound2Str l.actual_value) 4),
   (("H", r), mkNumCell (okrFormulaH r) 5),
   (("I", r), mkNumCell (formatRound2Str l.weightage) 3),
   (("J", r), mkCell ((l.team.map Team.name).getD "") 3)]

/-- The data-row cells (`for row_idx, line in enumerate(lines, start=2)`). -/
def okrDataCells : Nat → List OkrLine → List (CellRef × Cell)
  | _, [] => []
  | r, l :: t => okrRowCells r l ++ okrDataCells (r + 1) t

/-- The totals row with its SUM formulas. -/
def okrTotalsCells (totalRow : Nat) : List (CellRef × Cell) :=
  let lastDataRow := totalRow - 1
  [(("A", totalRow), mkCell "TOTALS:" 2),
   (("F", totalRow), mkNumCell ("=SUM(F2:F" ++ toString lastDataRow ++ ")") 2),
   (("G", totalRow), mkNumCell ("=SUM(G2:G" ++ toString lastDataRow ++ ")") 2),
   (("I", totalRow), mkNumCell ("=SUM(I2:I" ++ toString lastDataRow ++ ")") 2)]

/-- Stable insertion into a list sorted ascending by `seqOf`. -/
def insertBySeq {α : Type} (seqOf : α → Int) (x : α) : List α → List α
  | [] => [x]
  | y :: t => if seqOf y < seqOf x then y :: insertBySeq seqOf x t else x :: y :: t

/-- `recordset.sorted('sequence')`: a stable ascending sort by sequence. -/
def sortBySeq {α : Type} (seqOf : α → Int) : List α → List α
  | [] => []
  | x :: t => insertBySeq seqOf x (sortBySeq seqOf t)

/-- `HrAppraisal._generate_okr_spreadsheet`: header row, one row per OKR
line sorted by sequence, and a totals row, in one sheet. -/
def Appraisal.generate_okr_spreadsheet (a : Appraisal) : SpreadsheetData :=
  let lines := sortBySeq OkrLine.sequence a.okr_line_ids
  let totalRow := lines.length + 2
  { version := 16
    sheets := [{
      id := "okr_sheet"
      name := "OKR Criteria"
      colNumber := okrHeaders.length
      rowNumber := totalRow
      cells := okrHeaderCells ++ okrDataCells 2 lines ++ okrTotalsCells totalRow }]
    revisionId := "START_REVISION" }

/-! ## Spreadsheet parsing (`_sync_okr_from_spreadsheet`,
`_sync_ninebox_from_spreadsheet`) -/

/-- `cells.get(ref, {}).get('content', '0')`. -/
def cellContent (cells : List (CellRef × Cell)) (ref : CellRef) : String :=
  match (cells.find? (fun p => decide (p.1 = ref))).map Prod.snd with
  | none => "0"
  | some c => c.content.getD "0"

/-- `try: actual_val = float(actual_str) except (ValueError, TypeError):
actual_val = 0.0`, applied to the Actual cell `G{r}`. -/
def actualValueFromSheet (cells : List (CellRef × Cell)) (r : Nat) : ℚ :=
  (pyFloat (cellContent cells ("G", r))).getD 0

/-- The guarded write-back: write the parsed value only when it differs
from the stored one by more than 0.001. -/
def syncActualOkr (v : ℚ) (l : OkrLine) : OkrLine :=
  if |l.actual_value - v| > 1 / 1000 then { l with actual_value := v } else l

/-- The guarded write-back on a performance line. -/
def syncActualPerf (v : ℚ) (l : NineboxPerformanceLine) : NineboxPerformanceLine :=
  if |l.actual_value - v| > 1 / 1000 then { l with actual_value := v } else l

/-- The guarded write-back on a potential line. -/
def syncActualPot (v : ℚ) (l : NineboxPotentialLine) : NineboxPotentialLine :=
  if |l.actual_value - v| > 1 / 1000 then { l with actual_value := v } else l

/-- `HrAppraisal._sync_okr_from_spreadsheet`: read the `G` cell of each row
(lines sorted by sequence, rows from 2) from the first sheet and write the
parsed value back under the 0.001 guard. -/
def Appraisal.sync_okr_from_spreadsheet (a : Appraisal) (data : SpreadsheetData) : Appraisal :=
  match data.sheets with
  | [] => a
  | sheet :: _ =>
    let lines := sortBySeq OkrLine.sequence a.okr_line_ids
    { a with okr_line_ids :=
        (enumFrom 2 lines).map (fun p => syncActualOkr (actualValueFromSheet sheet.cells p.1) p.2) }

/-- `needle in hay` on strings: `needle` occurs as a contiguous
substring. -/
def listPrefixEq : List Char → List Char → Bool
  | [], _ => true
  | _, [] => false
  | a :: t, b :: u => a == b && listPrefixEq t u

/-- Auxiliary scan for `containsSubstr`. -/
def listContainsSub (n : List Char) : List Char → Bool
  | [] => n.isEmpty
  | c :: t => listPrefixEq n (c :: t) || listContainsSub n t

/-- Python `needle in hay` on strings. -/
def containsSubstr (needle hay : String) : Bool :=
  listContainsSub needle.data hay.data

/-- `HrAppraisal._sync_ninebox_from_spreadsheet`: the sheet whose name
contains `'erformance'` updates the performance lines, the one whose name
contains `'otential'` updates the potential lines, each under the 0.001
guard. -/
def Appraisal.sync_ninebox_from_spreadsheet (a : Appraisal) (data : SpreadsheetData) : Appraisal :=
  let a1 :=
    match data.sheets.find? (fun s => containsSubstr "erformance" s.name) with
    | none => a
    | some sheet =>
      let perfLines := sortBySeq NineboxPerformanceLine.sequence a.ninebox_performance_line_ids
      let newPerf := (enumFrom 2 perfLines).map
        (fun p => syncActualPerf (actualValueFromSheet sheet.cells p.1) p.2)
      { a with ninebox_performance_line_ids := newPerf }
  match data.sheets.find? (fun s => containsSubstr "otential" s.name) with
  | none => a1
  | some sheet =>
    let potLines := sortBySeq NineboxPotentialLine.sequence a1.ninebox_potential_line_ids
    let newPot := (enumFrom 2 potLines).map
      (fun p => syncActualPot (actualValueFromSheet sheet.cells p.1) p.2)
    { a1 with ninebox_potential_line_ids := newPot }

/-! ## Sample records used by the witnesses -/

/-- A sample team. -/
def sampleTeam : Team :=
  { id := 1, name := "Alpha", member_ids := [7] }

/-- A sample OKR line with a positive target and in-range weightage. -/
def sampleOkrLine : OkrLine :=
  { sequence := 1
    line_type := .department
    objective_breakdown := "Ship the feature"
    priority := some .high
    metric := some .percentage
    target_value := 4
    target_unit := none
    actual_value := 2
    actual_unit := none
    weightage := 50
    team := some sampleTeam }

/-- A sample 9-box performance line. -/
def samplePerfLine : NineboxPerformanceLine :=
  { sequence := 1
    line_type := .role
    objective_breakdown := "Deliver on time"
    priority := some .medium
    metric := some .count
    target_value := 10
    actual_value := 5
    weightage := 40
    team := some sampleTeam }

/-- A sample 9-box potential line with a non-positive target. -/
def samplePotLine : NineboxPotentialLine :=
  { sequence := 1
    line_type := .common
    objective_breakdown := "Grow the team"
    priority := some .low
    metric := some .rating
    target_value := 0
    actual_value := 3
    weightage := 60
    team := some sampleTeam }

/-- A sample `appraisal.criteria.data` record with a non-positive target. -/
def sampleCriteriaData : CriteriaData :=
  { sequence := 1
    objective_breakdown := "Quality"
    priority := "High"
    metric := "Score"
    target_value := 0
    actual_value := 3
    weightage := 20
    team_name := "Alpha"
    criteria_type := .okr_dept }

/-- A 9-box performance line with an out-of-range weightage (150). -/
def outOfRangePerfLine : NineboxPerformanceLine :=
  { samplePerfLine with weightage := 150 }

/-- A sample 9-box appraisal record. -/
def sampleAppraisal : Appraisal :=
  { employee_id := some 7
    employee_badge_id := none
    appraisal_template_type := .ninebox
    appraisal_group_id := none
    evaluation_type_ids := []
    okr_template_id := none
    ninebox_template_id := none
    survey_id := none
    okr_line_ids := []
    ninebox_performance_line_ids := [samplePerfLine]
    ninebox_potential_line_ids := [samplePotLine]
    criteria_loaded := true
    okr_criteria_loaded := false
    ninebox_criteria_loaded := true }

/-- A sample evaluation type with code `department`. -/
def sampleEvalType : EvalType :=
  { name := "Department", code := .department }

/-- A sample OKR template key result for the sample team. -/
def sampleOkrKeyResult : OkrKeyResult :=
  { team := sampleTeam
    key_objective_breakdown := some "Ship the feature"
    breakdown_priority := some .high
    metric := some .percentage
    target_value := 4
    target_unit := some "%"
    actual_value := 0
    actual_unit := none
    distributed_weightage := 50 }

/-- A sample active OKR template with one department key result. -/
def sampleOkrTemplate : OkrTemplate :=
  { id := 11
    active := true
    department_key_result_ids := [sampleOkrKeyResult]
    role_key_result_ids := []
    common_key_result_ids := [] }

/-- A sample environment: employee 7 belongs to the sample team, which has
exactly one OKR template (through one weightage row) and no 9-box
template. -/
def sampleWorld : World :=
  { teams := [sampleTeam]
    okr_weightages := [{ team_id := 1, okr_template := sampleOkrTemplate }]
    ninebox_weightages := []
    badges := []
    employees := [{ id := 7, barcode := some "B007" }] }

/-- A sample loadable OKR appraisal: employee, evaluation type and matching
template all selected. -/
def sampleOkrAppraisal : Appraisal :=
  { employee_id := some 7
    employee_badge_id := none
    appraisal_template_type := .okr
    appraisal_group_id := none
    evaluation_type_ids := [sampleEvalType]
    okr_template_id := some sampleOkrTemplate
    ninebox_template_id := none
    survey_id := none
    okr_line_ids := []
    ninebox_performance_line_ids := []
    ninebox_potential_line_ids := []
    criteria_loaded := false
    okr_criteria_loaded := false
    ninebox_criteria_loaded := false }

/-- An appraisal on which templates are yet to be detected. -/
def sampleDetectAppraisal : Appraisal :=
  { sampleOkrAppraisal with appraisal_template_type := .survey, okr_template_id := none }

/-- An appraisal in the state reached by loading 9-box criteria and then
switching the template type to OKR (the type-switch onchange warns but does
not revert the field or clear the lines): OKR-typed, with 9-box lines and
`ninebox_criteria_loaded` still set. -/
def mixedAppraisal : Appraisal :=
  { sampleAppraisal with appraisal_template_type := .okr }

/-- A loaded appraisal holding one line whose actual value has at most two
decimal places. -/
def cleanAppraisal : Appraisal :=
  { sampleOkrAppraisal with okr_line_ids := [sampleOkrLine], criteria_loaded := true }

/-- An OKR line whose actual value has three decimal places. -/
def roundtripLine : OkrLine :=
  { sampleOkrLine with actual_value := 5678 / 1000 }

/-- A loaded appraisal holding only `roundtripLine`. -/
def roundtripAppraisal : Appraisal :=
  { sampleOkrAppraisal with okr_line_ids := [roundtripLine], criteria_loaded := true }

/-! ## Number formatting and parsing lemmas -/

/-- `digitCh d` is a digit character of value `d` for `d < 10`. -/
theorem digitCh_spec (d : Nat) (h : d < 10) :
    isDigitCh (digitCh d) = true ∧ digitVal (digitCh d) = d := by
  interval_cases d <;> exact ⟨by decide, by decide⟩

/-- Every character `natDigitsAux` emits is a digit. -/
theorem natDigitsAux_mem (fuel : Nat) :
    ∀ n, n ≤ fuel → ∀ c ∈ natDigitsAux fuel n, isDigitCh c = true := by
  induction fuel with
  | zero =>
    intro n hn c hc
    simp [natDigitsAux] at hc
  | succ fuel ih =>
    intro n hn c hc
    unfold natDigitsAux at hc
    by_cases h0 : n = 0
    · simp [h0] at hc
    · rw [if_neg h0] at hc
      rcases List.mem_append.mp hc with hmem | hmem
      · exact ih (n / 10) (by omega) c hmem
      · simp at hmem
        subst hmem
        exact (digitCh_spec (n % 10) (Nat.mod_lt _ (by norm_num))).1

/-- Every character of `natStr n` is a digit. -/
theorem natStr_mem (n : Nat) : ∀ c ∈ natStr n, isDigitCh c = true := by
  unfold natStr
  split_ifs with h
  · intro c hc
    simp at hc
    subst hc
    decide
  · exact natDigitsAux_mem n n le_rfl

/-- `natStr` never returns the empty list. -/
theorem natStr_ne_nil (n : Nat) : natStr n ≠ [] := by
  unfold natStr
  split_ifs with h
  · simp
  · cases n with
    | zero => exact absurd rfl h
    | succ m =>
      unfold natDigitsAux
      rw [if_neg h]
      simp

/-- Folding the digit characters of `natDigitsAux` recovers the number. -/
theorem foldl_digits_aux (fuel : Nat) :
    ∀ n, n ≤ fuel → ∀ a : Nat,
      List.foldl (fun x c => 10 * x + digitVal c) a (natDigitsAux fuel n)
        = a * 10 ^ (natDigitsAux fuel n).length + n := by
  induction fuel with
  | zero =>
    intro n hn a
    interval_cases n
    simp [natDigitsAux]
  | succ fuel ih =>
    intro n hn a
    unfold natDigitsAux
    by_cases h0 : n = 0
    · simp [h0]
    · rw [if_neg h0]
      rw [List.foldl_append, ih (n / 10) (by omega) a]
      simp only [List.foldl_cons, List.foldl_nil, List.length_append, List.length_cons,
        List.length_nil]
      rw [(digitCh_spec (n % 10) (Nat.mod_lt _ (by norm_num))).2]
      rw [pow_succ, ← mul_assoc]
      generalize a * 10 ^ (natDigitsAux fuel (n / 10)).length = A
      omega

/-- `digitsVal` inverts `natStr`. -/
theorem digitsVal_natStr (n : Nat) : digitsVal (natStr n) = n := by
  unfold natStr digitsVal
  split_ifs with h
  · subst h
    decide
  · have := foldl_digits_aux n n le_rfl 0
    simpa using this

/-- Every character of `fracStr f` is a digit when `f < 100`. -/
theorem fracStr_mem (f : Nat) (h : f < 100) : ∀ c ∈ fracStr f, isDigitCh c = true := by
  unfold fracStr
  split_ifs with h10 <;> intro c hc <;> simp at hc
  · subst hc
    exact (digitCh_spec _ (by omega)).1
  · rcases hc with hc | hc <;> subst hc
    · exact (digitCh_spec _ (by omega)).1
    · exact (digitCh_spec _ (by omega)).1

/-- The parsed value of `fracStr f` at its own length is `f / 100`. -/
theorem fracStr_val (f : Nat) (h : f < 100) :
    (digitsVal (fracStr f) : ℚ) / 10 ^ (fracStr f).length = (f : ℚ) / 100 := by
  unfold fracStr digitsVal
  split_ifs with h10
  · simp only [List.foldl_cons, List.foldl_nil, List.length_cons, List.length_nil]
    rw [(digitCh_spec (f / 10) (by omega)).2]
    obtain ⟨k, hk⟩ := Nat.dvd_of_mod_eq_zero h10
    subst hk
    rw [Nat.mul_div_cancel_left k (by norm_num)]
    push_cast
    ring_nf
  · simp only [List.foldl_cons, List.foldl_nil, List.length_cons, List.length_nil]
    rw [(digitCh_spec (f / 10) (by omega)).2, (digitCh_spec (f % 10) (Nat.mod_lt _ (by norm_num))).2]
    have hdm : 10 * (f / 10) + f % 10 = f := by omega
    rw [Nat.mul_zero, Nat.zero_add, hdm]
    norm_num

/-- `takeWhile`/`dropWhile` split an all-true prefix at the first failing
character. -/
theorem takeWhile_append_stop (p : Char → Bool) (l1 : List Char) (c : Char) (l2 : List Char)
    (h1 : ∀ x ∈ l1, p x = true) (h2 : p c = false) :
    (l1 ++ c :: l2).takeWhile p = l1 ∧ (l1 ++ c :: l2).dropWhile p = c :: l2 := by
  induction l1 with
  | nil => simp [List.takeWhile_cons, List.dropWhile_cons, h2]
  | cons a t ih =>
    have ha : p a = true := h1 a (by simp)
    have iht := ih (fun x hx => h1 x (by simp [hx]))
    simp [List.takeWhile_cons, List.dropWhile_cons, ha, iht.1, iht.2]

/-- `takeWhile`/`dropWhile` on an all-true list. -/
theorem takeWhile_all_true (p : Char → Bool) (l : List Char) (h : ∀ x ∈ l, p x = true) :
    l.takeWhile p = l ∧ l.dropWhile p = [] := by
  induction l with
  | nil => simp
  | cons a t ih =>
    have ha := h a (by simp)
    have iht := ih (fun x hx => h x (by simp [hx]))
    simp [List.takeWhile_cons, List.dropWhile_cons, ha, iht.1, iht.2]

/-- `dropWhile` is the identity on a list whose head fails the predicate
(in particular on an all-false list). -/
theorem dropWhile_eq_self_of (p : Char → Bool) (l : List Char)
    (h : ∀ c ∈ l, p c = false) : l.dropWhile p = l := by
  cases l with
  | nil => rfl
  | cons a t => simp [List.dropWhile_cons, h a (by simp)]

/-- Stripping whitespace from a list with no whitespace is the identity. -/
theorem trim_eq_self (l : List Char) (h : ∀ c ∈ l, isSpaceCh c = false) :
    ((l.dropWhile isSpaceCh).reverse.dropWhile isSpaceCh).reverse = l := by
  rw [dropWhile_eq_self_of _ l h,
    dropWhile_eq_self_of _ l.reverse (fun c hc => h c (List.mem_reverse.mp hc))]
  exact List.reverse_reverse l

/-- Whitespace characters have code points at most 32. -/
theorem isSpaceCh_toNat (c : Char) (h : isSpaceCh c = true) : c.toNat ≤ 32 := by
  simp only [isSpaceCh, Bool.or_eq_true, decide_eq_true_eq] at h
  rcases h with ((((h | h) | h) | h) | h) | h <;> subst h <;> decide

/-- Digit characters are not whitespace. -/
theorem isDigitCh_not_space (c : Char) (h : isDigitCh c = true) : isSpaceCh c = false := by
  have h' : 48 ≤ c.toNat ∧ c.toNat ≤ 57 := by simpa [isDigitCh] using h
  cases hs : isSpaceCh c
  · rfl
  · exact absurd (isSpaceCh_toNat c hs) (by omega)

/-- Digit characters are none of the structural characters of a float
literal. -/
theorem isDigitCh_ne (c : Char) (h : isDigitCh c = true) :
    c ≠ '-' ∧ c ≠ '+' ∧ c ≠ '.' ∧ c ≠ 'e' ∧ c ≠ 'E' := by
  have h' : 48 ≤ c.toNat ∧ c.toNat ≤ 57 := by simpa [isDigitCh] using h
  refine ⟨fun hc => ?_, fun hc => ?_, fun hc => ?_, fun hc => ?_, fun hc => ?_⟩ <;>
    (subst hc; revert h'; decide)

/-- `parseUnsigned` on a formatted mantissa `natStr a ++ "." ++ fracStr b`
returns `a + b / 100` with nothing left over. -/
theorem parseUnsigned_format (a b : Nat) (hb : b < 100) :
    parseUnsigned (natStr a ++ '.' :: fracStr b) = some ((a : ℚ) + (b : ℚ) / 100, []) := by
  have hsplit := takeWhile_append_stop isDigitCh (natStr a) '.' (fracStr b)
    (natStr_mem a) (by decide)
  have hfall := takeWhile_all_true isDigitCh (fracStr b) (fracStr_mem b hb)
  have hne : (natStr a).isEmpty = false := by
    cases hcs : natStr a with
    | nil => exact absurd hcs (natStr_ne_nil a)
    | cons c t => rfl
  unfold parseUnsigned
  rw [hsplit.1, hsplit.2]
  simp only [List.head?_cons, List.tail_cons, Option.some.injEq, hfall.1, hfall.2, hne,
    Bool.false_and, Bool.false_eq_true, if_false, if_true]
  rw [digitsVal_natStr, fracStr_val b hb]

/-- `parseExponent` on the empty rest. -/
theorem parseExponent_nil : parseExponent [] = some (0, []) := by
  unfold parseExponent
  rw [if_neg (by simp)]

/-- `pyFloatCore` on the formatted characters of `round(q, 2)` returns
exactly the rounded rational. -/
theorem pyFloatCore_format (q : ℚ) : pyFloatCore (formatRound2 q) = some (round2q q) := by
  have hb : (rnd2 q).natAbs % 100 < 100 := Nat.mod_lt _ (by norm_num)
  have hcast : (((rnd2 q).natAbs / 100 : ℕ) : ℚ) + (((rnd2 q).natAbs % 100 : ℕ) : ℚ) / 100
      = ((rnd2 q).natAbs : ℚ) / 100 := by
    have hdm : ((rnd2 q).natAbs : ℚ)
        = 100 * (((rnd2 q).natAbs / 100 : ℕ) : ℚ) + (((rnd2 q).natAbs % 100 : ℕ) : ℚ) := by
      exact_mod_cast (Nat.div_add_mod (rnd2 q).natAbs 100).symm
    rw [hdm]
    ring
  have hps := parseUnsigned_format ((rnd2 q).natAbs / 100) ((rnd2 q).natAbs % 100) hb
  unfold formatRound2
  dsimp only
  by_cases hneg : rnd2 q < 0
  · rw [if_pos hneg]
    simp only [pyFloatCore, List.head?_cons, List.tail_cons, Option.some.injEq,
      eq_self_iff_true, if_true, true_or, hps, parseExponent_nil, List.isEmpty_nil,
      zpow_zero, mul_one]
    rw [hcast]
    unfold round2q
    have habs : ((rnd2 q).natAbs : ℚ) = -((rnd2 q : ℚ)) := by
      rw [Int.cast_natAbs, abs_of_neg hneg, Int.cast_neg]
    rw [habs]
    ring_nf
  · rw [if_neg hneg]
    obtain ⟨c, t, hct⟩ := List.exists_cons_of_ne_nil (natStr_ne_nil ((rnd2 q).natAbs / 100))
    have hdigit : isDigitCh c = true := by
      apply natStr_mem
      rw [hct]
      simp
    have hnotminus := (isDigitCh_ne c hdigit).1
    have hnotplus := (isDigitCh_ne c hdigit).2.1
    have hhead : (natStr ((rnd2 q).natAbs / 100) ++ '.' :: fracStr ((rnd2 q).natAbs % 100)).head?
        = some c := by
      rw [hct, List.cons_append, List.head?_cons]
    have hc1 : ¬(natStr ((rnd2 q).natAbs / 100)
        ++ '.' :: fracStr ((rnd2 q).natAbs % 100)).head? = some '-' := by
      rw [hhead]
      simp [hnotminus]
    have hc2 : ¬((natStr ((rnd2 q).natAbs / 100)
          ++ '.' :: fracStr ((rnd2 q).natAbs % 100)).head? = some '-' ∨
        (natStr ((rnd2 q).natAbs / 100)
          ++ '.' :: fracStr ((rnd2 q).natAbs % 100)).head? = some '+') := by
      rw [hhead]
      simp [hnotminus, hnotplus]
    simp only [pyFloatCore]
    rw [if_neg hc1, if_neg hc2, hps]
    dsimp only
    rw [parseExponent_nil]
    dsimp only
    simp only [List.isEmpty_nil, if_true, zpow_zero, mul_one, one_mul, Option.some.injEq]
    rw [hcast]
    unfold round2q
    have habs : ((rnd2 q).natAbs : ℚ) = (rnd2 q : ℚ) := by
      rw [Int.cast_natAbs, abs_of_nonneg (not_lt.mp hneg)]
    rw [habs]

/-- No character of the formatted number is whitespace. -/
theorem formatRound2_not_space (q : ℚ) : ∀ c ∈ formatRound2 q, isSpaceCh c = false := by
  have hmant : ∀ x ∈ natStr ((rnd2 q).natAbs / 100) ++ '.' :: fracStr ((rnd2 q).natAbs % 100),
      isSpaceCh x = false := by
    intro x hx
    rcases List.mem_append.mp hx with h1 | h2
    · exact isDigitCh_not_space _ (natStr_mem _ _ h1)
    · rcases List.mem_cons.mp h2 with h3 | h4
      · subst h3
        decide
      · exact isDigitCh_not_space _ (fracStr_mem _ (Nat.mod_lt _ (by norm_num)) _ h4)
  intro c hc
  unfold formatRound2 at hc
  dsimp only at hc
  split_ifs at hc with h
  · rcases List.mem_cons.mp hc with h1 | h2
    · subst h1
      decide
    · exact hmant c h2
  · exact hmant c hc

/-- Round trip: Python `float` applied to `str(round(q, 2))` recovers
exactly `round(q, 2)`. -/
theorem pyFloat_formatRound2 (q : ℚ) : pyFloat (formatRound2Str q) = some (round2q q) := by
  unfold pyFloat formatRound2Str
  show pyFloatCore
    ((((formatRound2 q).dropWhile isSpaceCh).reverse.dropWhile isSpaceCh).reverse) = _
  rw [trim_eq_self _ (formatRound2_not_space q)]
  exact pyFloatCore_format q

/-- A rational that is an exact multiple of 1/100 is a fixed point of
`round(·, 2)`. -/
theorem round2q_fixed (q : ℚ) (n : ℤ) (h : 100 * q = (n : ℚ)) : round2q q = q := by
  have hr : rnd2 q = n := by
    unfold rnd2 roundHalfEven
    rw [h]
    simp only [Int.floor_intCast, sub_self]
    rw [if_pos (by norm_num)]
  unfold round2q
  rw [hr, ← h]
  ring_nf

/-! ## Generated-sheet lookup lemmas -/

/-- Within one generated data row, looking up the `G` reference of that row
finds the Actual cell. -/
theorem find_okrRowCells_hit (r : Nat) (l : OkrLine) :
    (okrRowCells r l).find? (fun p => decide (p.1 = (("G", r) : CellRef)))
      = some ((("G", r) : CellRef), mkNumCell (formatRound2Str l.actual_value) 4) := by
  unfold okrRowCells
  simp [List.find?, Prod.mk.injEq]

/-- A generated data row contains no reference with a different row
number. -/
theorem find_okrRowCells_miss (r r' : Nat) (l : OkrLine) (h : r ≠ r') :
    (okrRowCells r l).find? (fun p => decide (p.1 = (("G", r') : CellRef))) = none := by
  apply List.find?_eq_none.mpr
  intro x hx
  unfold okrRowCells at hx
  simp only [List.mem_cons, List.not_mem_nil, or_false] at hx
  rcases hx with hx | hx | hx | hx | hx | hx | hx | hx | hx | hx <;>
    subst hx <;> simp [Prod.mk.injEq, h]

/-- The header row (row 1) never matches a data-row reference. -/
theorem find_okrHeaderCells_miss (r' : Nat) (h : r' ≠ 1) :
    okrHeaderCells.find? (fun p => decide (p.1 = (("G", r') : CellRef))) = none := by
  apply List.find?_eq_none.mpr
  intro x hx
  unfold okrHeaderCells at hx
  rcases List.mem_map.mp hx with ⟨p, _, hfx⟩
  subst hfx
  simp [Prod.mk.injEq, Ne.symm h]

/-- The totals row never matches a data-row reference below it. -/
theorem find_okrTotalsCells_miss (tr r' : Nat) (h : r' ≠ tr) :
    (okrTotalsCells tr).find? (fun p => decide (p.1 = (("G", r') : CellRef))) = none := by
  apply List.find?_eq_none.mpr
  intro x hx
  unfold okrTotalsCells at hx
  simp only [List.mem_cons, List.not_mem_nil, or_false] at hx
  rcases hx with hx | hx | hx | hx <;> subst hx <;> simp [Prod.mk.injEq, h, Ne.symm h]

/-- Looking up `G{start+i}` in the generated data rows finds the Actual
cell of the i-th line. -/
theorem find_okrDataCells (lines : List OkrLine) :
    ∀ (start i : Nat) (hi : i < lines.length),
    (okrDataCells start lines).find? (fun p => decide (p.1 = (("G", start + i) : CellRef)))
      = some ((("G", start + i) : CellRef),
          mkNumCell (formatRound2Str ((lines.get ⟨i, hi⟩).actual_value)) 4) := by
  induction lines with
  | nil =>
    intro start i hi
    simp at hi
  | cons l t ih =>
    intro start i hi
    cases i with
    | zero =>
      show (okrDataCells start (l :: t)).find? _ = _
      unfold okrDataCells
      rw [List.find?_append]
      simp only [Nat.add_zero]
      rw [find_okrRowCells_hit start l, Option.or_some]
      rfl
    | succ j =>
      show (okrDataCells start (l :: t)).find? _ = _
      unfold okrDataCells
      rw [List.find?_append, find_okrRowCells_miss start (start + (j + 1)) l (by omega),
        Option.none_or]
      have hj : j < t.length := by
        simpa using Nat.lt_of_succ_lt_succ hi
      have := ih (start + 1) j hj
      rw [show start + 1 + j = start + (j + 1) by omega] at this
      rw [this]
      rfl

/-- The Actual-cell content of row `2+i` of the generated OKR sheet is the
formatted rounded actual value of the i-th sorted line. -/
theorem cellContent_generated (lines : List OkrLine) (i : Nat) (hi : i < lines.length) :
    cellContent (okrHeaderCells ++ okrDataCells 2 lines ++ okrTotalsCells (lines.length + 2))
        ("G", 2 + i)
      = formatRound2Str ((lines.get ⟨i, hi⟩).actual_value) := by
  unfold cellContent
  rw [List.find?_append, List.find?_append, find_okrHeaderCells_miss (2 + i) (by omega),
    Option.none_or, find_okrDataCells lines 2 i hi, Option.or_some]
  rfl

/-- `pyFloat "0"` parses to zero (the default content of a missing
cell). -/
theorem pyFloat_zero : pyFloat "0" = some 0 := by
  have hdv : digitsVal ['0'] = 0 := by decide
  have hp : parseUnsigned ['0'] = some (((0 : ℕ) : ℚ), []) := by
    unfold parseUnsigned
    have ht : List.takeWhile isDigitCh ['0'] = ['0'] := by decide
    have hd : List.dropWhile isDigitCh ['0'] = [] := by decide
    rw [ht, hd]
    dsimp only
    rw [if_neg (by decide), if_neg (by decide), hdv]
  show pyFloatCore _ = _
  have htrim : ((("0".data).dropWhile isSpaceCh).reverse.dropWhile isSpaceCh).reverse = ['0'] := by
    decide
  rw [htrim]
  unfold pyFloatCore
  rw [if_neg (by decide), if_neg (by decide)]
  dsimp only
  rw [hp]
  dsimp only
  rw [parseExponent_nil]
  dsimp only
  simp only [List.isEmpty_nil, eq_self_iff_true, if_true]
  norm_num

/-- The map over enumerated rows agrees with the simple map over lines when
the sheet lookup returns the rounded actual of each line. -/
theorem enumFrom_map_sync (cells : List (CellRef × Cell)) :
    ∀ (lines : List OkrLine) (start : Nat),
    (∀ (i : Nat) (hi : i < lines.length),
      actualValueFromSheet cells (start + i) = round2q ((lines.get ⟨i, hi⟩).actual_value)) →
    (enumFrom start lines).map (fun p => syncActualOkr (actualValueFromSheet cells p.1) p.2)
      = lines.map (fun l => syncActualOkr (round2q l.actual_value) l) := by
  intro lines
  induction lines with
  | nil =>
    intro start _
    rfl
  | cons l t ih =>
    intro start h
    have h0 := h 0 (by simp)
    rw [Nat.add_zero] at h0
    show ((start, l) :: enumFrom (start + 1) t).map _ = _
    simp only [List.map_cons]
    congr 1
    · rw [h0]
      rfl
    · apply ih (start + 1)
      intro i hi
      have hs := h (i + 1) (by simpa using Nat.succ_lt_succ hi)
      rw [show start + (i + 1) = start + 1 + i by omega] at hs
      rw [hs]
      rfl

/-- Syncing the sheet generated from the appraisal itself writes back
`round(actual, 2)` for every line (under the 0.001 guard). -/
theorem sync_generate_okr (a : Appraisal) :
    (a.sync_okr_from_spreadsheet a.generate_okr_spreadsheet).okr_line_ids
      = (sortBySeq OkrLine.sequence a.okr_line_ids).map
          (fun l => syncActualOkr (round2q l.actual_value) l) := by
  unfold Appraisal.generate_okr_spreadsheet Appraisal.sync_okr_from_spreadsheet
  dsimp only
  apply enumFrom_map_sync
  intro i hi
  unfold actualValueFromSheet
  rw [cellContent_generated (sortBySeq OkrLine.sequence a.okr_line_ids) i hi,
    pyFloat_formatRound2]
  rfl

/-- Membership is preserved by the stable insertion. -/
theorem mem_insertBySeq {α : Type} (f : α → Int) (x y : α) (l : List α) :
    y ∈ insertBySeq f x l ↔ y = x ∨ y ∈ l := by
  induction l with
  | nil => simp [insertBySeq]
  | cons a t ih =>
    unfold insertBySeq
    split_ifs with hle
    · simp only [List.mem_cons, ih]
      tauto
    · simp [List.mem_cons]

/-- Membership is preserved by the stable sort. -/
theorem mem_sortBySeq {α : Type} (f : α → Int) (y : α) (l : List α) :
    y ∈ sortBySeq f l ↔ y ∈ l := by
  induction l with
  | nil => simp [sortBySeq]
  | cons a t ih =>
    unfold sortBySeq
    rw [mem_insertBySeq, ih, List.mem_cons]

/-! ## Claims -/

/-- C2: on every criteria line (OKR, 9-box performance, 9-box potential and
`appraisal.criteria.data`), a positive target gives
`achievement_percentage = actual / target * 100` and a non-positive target
gives `achievement_percentage = 0`. -/
theorem C2_achievement_formula (l : OkrLine) (p : NineboxPerformanceLine)
    (q : NineboxPotentialLine) (c : CriteriaData) :
    ((l.target_value > 0 → l.achievement_percentage = l.actual_value / l.target_value * 100) ∧
     (l.target_value ≤ 0 → l.achievement_percentage = 0)) ∧
    ((p.target_value > 0 → p.achievement_percentage = p.actual_value / p.target_value * 100) ∧
     (p.target_value ≤ 0 → p.achievement_percentage = 0)) ∧
    ((q.target_value > 0 → q.achievement_percentage = q.actual_value / q.target_value * 100) ∧
     (q.target_value ≤ 0 → q.achievement_percentage = 0)) ∧
    ((c.target_value > 0 → c.achievement_percentage = c.actual_value / c.target_value * 100) ∧
     (c.target_value ≤ 0 → c.achievement_percentage = 0)) := by
  refine ⟨⟨?_, ?_⟩, ⟨?_, ?_⟩, ⟨?_, ?_⟩, ⟨?_, ?_⟩⟩ <;> intro h
  · simp [OkrLine.achievement_percentage, h]
  · simp [OkrLine.achievement_percentage, not_lt.mpr h]
  · simp [NineboxPerformanceLine.achievement_percentage, h]
  · simp [NineboxPerformanceLine.achievement_percentage, not_lt.mpr h]
  · simp [NineboxPotentialLine.achievement_percentage, h]
  · simp [NineboxPotentialLine.achievement_percentage, not_lt.mpr h]
  · simp [CriteriaData.achievement_percentage, h]
  · simp [CriteriaData.achievement_percentage, not_lt.mpr h]

/-- Witness for C2 at concrete lines: the sample OKR line has target 4 > 0,
the sample criteria-data record has target 0 ≤ 0. -/
theorem C2_achievement_formula_witness :
    sampleOkrLine.achievement_percentage =
      sampleOkrLine.actual_value / sampleOkrLine.target_value * 100 ∧
    sampleCriteriaData.achievement_percentage = 0 :=
  ⟨(C2_achievement_formula sampleOkrLine samplePerfLine samplePotLine sampleCriteriaData).1.1
      (by norm_num [sampleOkrLine]),
   (C2_achievement_formula sampleOkrLine samplePerfLine samplePotLine sampleCriteriaData).2.2.2.2
      (by norm_num [sampleCriteriaData])⟩

/-- C3: on every line carrying a weighted score (OKR, 9-box performance,
9-box potential), `weighted_score = achievement_percentage / 100 *
weightage`. -/
theorem C3_weighted_score_formula (l : OkrLine) (p : NineboxPerformanceLine)
    (q : NineboxPotentialLine) :
    l.weighted_score = l.achievement_percentage / 100 * l.weightage ∧
    p.weighted_score = p.achievement_percentage / 100 * p.weightage ∧
    q.weighted_score = q.achievement_percentage / 100 * q.weightage :=
  ⟨rfl, rfl, rfl⟩

/-- C4: an OKR appraisal's final score is the sum of its OKR lines'
weighted scores; a 9-box appraisal's final score is the average of the
performance and potential totals (also when both totals are zero, where the
code's separate `else` branch returns the same value). -/
theorem C4_final_score_formula (a : Appraisal) :
    (a.appraisal_template_type = .okr →
      a.final_score = (a.okr_line_ids.map OkrLine.weighted_score).sum) ∧
    (a.appraisal_template_type = .ninebox →
      a.final_score = (a.total_performance_score + a.total_potential_score) / 2) := by
  constructor
  · intro h
    simp [Appraisal.final_score, h, Appraisal.total_okr_score]
  · intro h
    simp only [Appraisal.final_score, h]
    rw [if_neg (by simp), if_pos trivial]
    split_ifs with h1
    · rfl
    · push_neg at h1
      rw [h1.1, h1.2]
      norm_num

/-- Witness for C4 at a concrete 9-box appraisal. -/
theorem C4_final_score_formula_witness :
    sampleAppraisal.final_score =
      (sampleAppraisal.total_performance_score + sampleAppraisal.total_potential_score) / 2 :=
  (C4_final_score_formula sampleAppraisal).2 rfl

/-- C5: the performance rating depends on the final score alone through
five bands; the bands are monotone (stated through the band height) and the
five iff characterizations show that every score — in particular every
score in [0, 100] — falls in exactly one band (the five right-hand
conditions are pairwise exclusive and exhaustive). -/
theorem C5_rating_bands (s t : ℚ) (hst : s ≤ t) :
    (compute_performance_rating s).height ≤ (compute_performance_rating t).height ∧
    (compute_performance_rating s = .outstanding ↔ 90 ≤ s) ∧
    (compute_performance_rating s = .exceeds ↔ 75 ≤ s ∧ s < 90) ∧
    (compute_performance_rating s = .meets ↔ 60 ≤ s ∧ s < 75) ∧
    (compute_performance_rating s = .needs_improvement ↔ 40 ≤ s ∧ s < 60) ∧
    (compute_performance_rating s = .unsatisfactory ↔ s < 40) := by
  unfold compute_performance_rating
  refine ⟨?_, ?_, ?_, ?_, ?_, ?_⟩ <;>
    split_ifs <;>
    simp [Rating.height] <;>
    first
    | linarith
    | (intros; linarith)
    | (constructor <;> intros <;> linarith)

/-- Witness for C5 at concrete scores 50 ≤ 80 and 95. -/
theorem C5_rating_bands_witness :
    (compute_performance_rating 50).height ≤ (compute_performance_rating 80).height ∧
    (compute_performance_rating 95 = .outstanding ↔ 90 ≤ (95 : ℚ)) :=
  ⟨(C5_rating_bands 50 80 (by norm_num)).1, (C5_rating_bands 95 95 le_rfl).2.1⟩

/-- C6, amended: the weightage validations that the criteria-line models
declare — `_check_weightage` on OKR lines and on `appraisal.criteria.data`
records — raise exactly when `weightage < 0 or weightage > 100`, so a
record of those two models passing validation has weightage in [0, 100];
the 9-box performance and potential line models declare no weightage
validation, so persisting them never raises, whatever the weightage. -/
theorem C6_weightage_validation (l : OkrLine) (c : CriteriaData)
    (p : NineboxPerformanceLine) (q : NineboxPotentialLine) :
    ((∃ e, l.check_weightage = Except.error e) ↔ (l.weightage < 0 ∨ l.weightage > 100)) ∧
    (l.check_weightage = Except.ok () → 0 ≤ l.weightage ∧ l.weightage ≤ 100) ∧
    ((∃ e, c.check_weightage = Except.error e) ↔ (c.weightage < 0 ∨ c.weightage > 100)) ∧
    (c.check_weightage = Except.ok () → 0 ≤ c.weightage ∧ c.weightage ≤ 100) ∧
    p.check_weightage = Except.ok () ∧
    q.check_weightage = Except.ok () := by
  unfold OkrLine.check_weightage CriteriaData.check_weightage
  refine ⟨?_, ?_, ?_, ?_, rfl, rfl⟩
  · split_ifs with h
    · simpa using h
    · simpa using h
  · split_ifs with h
    · intro hco
      cases hco
    · intro _
      push_neg at h
      exact h
  · split_ifs with h
    · simpa using h
    · simpa using h
  · split_ifs with h
    · intro hco
      cases hco
    · intro _
      push_neg at h
      exact h

/-- Witness for C6 at the sample OKR line (weightage 50 passes validation
and lies in [0, 100]). -/
theorem C6_weightage_validation_witness :
    sampleOkrLine.check_weightage = Except.ok () ∧
    (0 ≤ sampleOkrLine.weightage ∧ sampleOkrLine.weightage ≤ 100) := by
  have hok : sampleOkrLine.check_weightage = Except.ok () := by
    norm_num [OkrLine.check_weightage, sampleOkrLine]
  exact ⟨hok,
    (C6_weightage_validation sampleOkrLine sampleCriteriaData samplePerfLine
      samplePotLine).2.1 hok⟩

/-- Counterexample to C6 as stated: a 9-box performance line with
weightage 150 persists without any ValidationError (its model declares no
weightage constraint), so on this criteria line the validation does not
raise although the weightage is out of range, refuting both the
raise-iff-out-of-range biconditional and the persisted invariant
weightage ∈ [0, 100]. -/
theorem C6_weightage_counterexample :
    outOfRangePerfLine.check_weightage = Except.ok () ∧
    outOfRangePerfLine.weightage > 100 ∧
    ¬((∃ e, outOfRangePerfLine.check_weightage = Except.error e) ↔
      (outOfRangePerfLine.weightage < 0 ∨ outOfRangePerfLine.weightage > 100)) := by
  have h150 : outOfRangePerfLine.weightage = 150 := rfl
  refine ⟨rfl, by rw [h150]; norm_num, fun hiff => ?_⟩
  obtain ⟨e, he⟩ := hiff.mpr (Or.inr (by rw [h150]; norm_num))
  cases he

/-- With evaluation types selected, `_load_okr_criteria` cannot raise: it
replaces the OKR lines. -/
theorem load_okr_criteria_ok (w : World) (a : Appraisal) (h : a.evaluation_type_ids ≠ []) :
    a.load_okr_criteria w = Except.ok { a with okr_line_ids :=
      match a.okr_template_id with
      | some tmpl => load_okr_lines tmpl (a.employee_team_ids w) 1 a.evaluation_type_ids
      | none => [] } := by
  unfold Appraisal.load_okr_criteria
  rw [if_neg h]

/-- With evaluation types selected, `_load_ninebox_criteria` cannot raise:
it replaces the performance and potential lines. -/
theorem load_ninebox_criteria_ok (w : World) (a : Appraisal) (h : a.evaluation_type_ids ≠ []) :
    a.load_ninebox_criteria w = Except.ok { a with
      ninebox_performance_line_ids :=
        match a.ninebox_template_id with
        | some tmpl => load_ninebox_perf_lines tmpl (a.employee_team_ids w) a.evaluation_type_ids
        | none => []
      ninebox_potential_line_ids :=
        match a.ninebox_template_id with
        | some tmpl => load_ninebox_pot_lines tmpl (a.employee_team_ids w) a.evaluation_type_ids
        | none => [] } := by
  unfold Appraisal.load_ninebox_criteria
  rw [if_neg h]

/-- C7: `action_load_criteria` raises exactly when no employee is selected,
or no evaluation type is selected, or no template matching the selected
template type is set; otherwise it returns the loaded record with
`criteria_loaded` (and the flag of the loaded type) set to true. -/
theorem C7_load_criteria_validation (w : World) (g : String) (a : Appraisal) :
    ((a.employee_id = none ∨ a.evaluation_type_ids = [] ∨
      (¬(a.appraisal_template_type = .okr ∧ a.okr_template_id ≠ none) ∧
       ¬(a.appraisal_template_type = .ninebox ∧ a.ninebox_template_id ≠ none))) ↔
      ∃ e, a.action_load_criteria w g = Except.error e) ∧
    (¬(a.employee_id = none ∨ a.evaluation_type_ids = [] ∨
      (¬(a.appraisal_template_type = .okr ∧ a.okr_template_id ≠ none) ∧
       ¬(a.appraisal_template_type = .ninebox ∧ a.ninebox_template_id ≠ none))) →
      ∃ a', a.action_load_criteria w g = Except.ok a' ∧ a'.criteria_loaded = true ∧
        (a.appraisal_template_type = .okr → a'.okr_criteria_loaded = true) ∧
        (a.appraisal_template_type = .ninebox → a'.ninebox_criteria_loaded = true)) := by
  unfold Appraisal.action_load_criteria
  by_cases h1 : a.employee_id = none
  · rw [if_pos h1]
    exact ⟨⟨fun _ => ⟨_, rfl⟩, fun _ => Or.inl h1⟩, fun hn => absurd (Or.inl h1) hn⟩
  · rw [if_neg h1]
    by_cases h2 : a.evaluation_type_ids = []
    · rw [if_pos h2]
      exact ⟨⟨fun _ => ⟨_, rfl⟩, fun _ => Or.inr (Or.inl h2)⟩,
        fun hn => absurd (Or.inr (Or.inl h2)) hn⟩
    · rw [if_neg h2]
      by_cases h3 : a.appraisal_template_type = .okr ∧ a.okr_template_id ≠ none
      · rw [if_pos h3, load_okr_criteria_ok w a h2]
        refine ⟨⟨fun hbad => ?_, fun he => ?_⟩, fun _ => ?_⟩
        · rcases hbad with hb | hb | hb
          · exact absurd hb h1
          · exact absurd hb h2
          · exact absurd h3 hb.1
        · rcases he with ⟨e, he⟩
          cases he
        · refine ⟨_, rfl, rfl, fun _ => rfl, fun hc => ?_⟩
          rw [h3.1] at hc
          cases hc
      · rw [if_neg h3]
        by_cases h4 : a.appraisal_template_type = .ninebox ∧ a.ninebox_template_id ≠ none
        · rw [if_pos h4, load_ninebox_criteria_ok w a h2]
          refine ⟨⟨fun hbad => ?_, fun he => ?_⟩, fun _ => ?_⟩
          · rcases hbad with hb | hb | hb
            · exact absurd hb h1
            · exact absurd hb h2
            · exact absurd h4 hb.2
          · rcases he with ⟨e, he⟩
            cases he
          · refine ⟨_, rfl, rfl, fun hc => ?_, fun _ => rfl⟩
            rw [h4.1] at hc
            cases hc
        · rw [if_neg h4]
          exact ⟨⟨fun _ => ⟨_, rfl⟩, fun _ => Or.inr (Or.inr ⟨h3, h4⟩)⟩,
            fun hn => absurd (Or.inr (Or.inr ⟨h3, h4⟩)) hn⟩

/-- Witness for C7: the sample loadable appraisal passes validation and
comes back with the loaded flags set. -/
theorem C7_load_criteria_validation_witness :
    ∃ a', sampleOkrAppraisal.action_load_criteria sampleWorld "group-1" = Except.ok a' ∧
      a'.criteria_loaded = true ∧
      (sampleOkrAppraisal.appraisal_template_type = .okr → a'.okr_criteria_loaded = true) ∧
      (sampleOkrAppraisal.appraisal_template_type = .ninebox → a'.ninebox_criteria_loaded = true) :=
  (C7_load_criteria_validation sampleWorld "group-1" sampleOkrAppraisal).2 (by decide)

/-- C8: with an employee selected, whenever exactly one candidate template
exists over both families (a candidate is an active template whose
weightage table references one of the employee teams), auto-detection
selects it and sets the matching template type. -/
theorem C8_template_auto_detection (w : World) (a : Appraisal) (e : Nat)
    (he : a.employee_id = some e)
    (hone : (a.available_okr_template_ids w).length +
      (a.available_ninebox_template_ids w).length = 1) :
    (∀ t, a.available_okr_template_ids w = [t] →
      (a.auto_detect_templates w).okr_template_id = some t ∧
      (a.auto_detect_templates w).appraisal_template_type = .okr) ∧
    (∀ t, a.available_ninebox_template_ids w = [t] →
      (a.auto_detect_templates w).ninebox_template_id = some t ∧
      (a.auto_detect_templates w).appraisal_template_type = .ninebox) := by
  constructor
  · intro t ht
    have hnb : a.available_ninebox_template_ids w = [] := by
      rw [ht] at hone
      simp only [List.length_singleton] at hone
      exact List.length_eq_zero.mp (by omega)
    have h1 : a.has_okr_templates w := by
      simp [Appraisal.has_okr_templates, ht]
    have h2 : ¬a.has_ninebox_templates w := by
      simp [Appraisal.has_ninebox_templates, hnb]
    unfold Appraisal.auto_detect_templates
    rw [if_neg (by simp [he])]
    simp only [ht, hnb]
    rw [if_pos ⟨h1, h2⟩, if_pos (by simp)]
    simp
  · intro t ht
    have hok : a.available_okr_template_ids w = [] := by
      rw [ht] at hone
      simp only [List.length_singleton] at hone
      exact List.length_eq_zero.mp (by omega)
    have h1 : a.has_ninebox_templates w := by
      simp [Appraisal.has_ninebox_templates, ht]
    have h2 : ¬a.has_okr_templates w := by
      simp [Appraisal.has_okr_templates, hok]
    unfold Appraisal.auto_detect_templates
    rw [if_neg (by simp [he])]
    simp only [ht, hok]
    rw [if_neg (by exact fun hc => h2 hc.1), if_pos ⟨h1, h2⟩, if_pos (by simp)]
    simp

/-- Witness for C8: in the sample environment exactly one candidate exists
and auto-detection selects it. -/
theorem C8_template_auto_detection_witness :
    (sampleDetectAppraisal.auto_detect_templates sampleWorld).okr_template_id =
      some sampleOkrTemplate ∧
    (sampleDetectAppraisal.auto_detect_templates sampleWorld).appraisal_template_type = .okr :=
  (C8_template_auto_detection sampleWorld sampleDetectAppraisal 7 rfl (by decide)).1
    sampleOkrTemplate (by decide)

/-- Auto-detection only touches the template selection and the template
type: criteria lines and loaded flags pass through. -/
theorem auto_detect_preserves_lines (w : World) (a : Appraisal) :
    (a.auto_detect_templates w).okr_line_ids = a.okr_line_ids ∧
    (a.auto_detect_templates w).ninebox_performance_line_ids = a.ninebox_performance_line_ids ∧
    (a.auto_detect_templates w).ninebox_potential_line_ids = a.ninebox_potential_line_ids ∧
    (a.auto_detect_templates w).criteria_loaded = a.criteria_loaded ∧
    (a.auto_detect_templates w).okr_criteria_loaded = a.okr_criteria_loaded ∧
    (a.auto_detect_templates w).ninebox_criteria_loaded = a.ninebox_criteria_loaded := by
  unfold Appraisal.auto_detect_templates
  refine ⟨?_, ?_, ?_, ?_, ?_, ?_⟩ <;> (dsimp only; split_ifs <;> rfl)

/-- After a full clear followed by auto-detection, all criteria lines are
gone and all loaded flags are reset. -/
theorem clear_then_detect (w : World) (b : Appraisal) :
    ((b.clear_template_selections true).auto_detect_templates w).okr_line_ids = [] ∧
    ((b.clear_template_selections true).auto_detect_templates w).ninebox_performance_line_ids = [] ∧
    ((b.clear_template_selections true).auto_detect_templates w).ninebox_potential_line_ids = [] ∧
    ((b.clear_template_selections true).auto_detect_templates w).criteria_loaded = false ∧
    ((b.clear_template_selections true).auto_detect_templates w).okr_criteria_loaded = false ∧
    ((b.clear_template_selections true).auto_detect_templates w).ninebox_criteria_loaded = false := by
  have h := auto_detect_preserves_lines w (b.clear_template_selections true)
  refine ⟨?_, ?_, ?_, ?_, ?_, ?_⟩ <;>
    first
    | (rw [h.1]; simp [Appraisal.clear_template_selections])
    | (rw [h.2.1]; simp [Appraisal.clear_template_selections])
    | (rw [h.2.2.1]; simp [Appraisal.clear_template_selections])
    | (rw [h.2.2.2.1]; simp [Appraisal.clear_template_selections])
    | (rw [h.2.2.2.2.1]; simp [Appraisal.clear_template_selections])
    | (rw [h.2.2.2.2.2]; simp [Appraisal.clear_template_selections])

/-- C9, amended: changing the employee clears all three criteria line sets
and resets all three loaded flags; changing the evaluation types (with
criteria loaded and previously selected evaluation types) clears the lines
and type flag of the current template type only, and resets
`criteria_loaded` — the other type's lines and flag pass through
unchanged. -/
theorem C9_criteria_clearing (w : World) (a : Appraisal) (origin : List EvalType) :
    ((a.onchange_employee_id_badge w).okr_line_ids = [] ∧
     (a.onchange_employee_id_badge w).ninebox_performance_line_ids = [] ∧
     (a.onchange_employee_id_badge w).ninebox_potential_line_ids = [] ∧
     (a.onchange_employee_id_badge w).criteria_loaded = false ∧
     (a.onchange_employee_id_badge w).okr_criteria_loaded = false ∧
     (a.onchange_employee_id_badge w).ninebox_criteria_loaded = false) ∧
    (a.criteria_loaded = true → origin ≠ [] →
      ((a.appraisal_template_type = .okr →
        (a.onchange_evaluation_type_ids origin).okr_line_ids = [] ∧
        (a.onchange_evaluation_type_ids origin).okr_criteria_loaded = false ∧
        (a.onchange_evaluation_type_ids origin).criteria_loaded = false ∧
        (a.onchange_evaluation_type_ids origin).ninebox_performance_line_ids =
          a.ninebox_performance_line_ids ∧
        (a.onchange_evaluation_type_ids origin).ninebox_potential_line_ids =
          a.ninebox_potential_line_ids ∧
        (a.onchange_evaluation_type_ids origin).ninebox_criteria_loaded =
          a.ninebox_criteria_loaded) ∧
       (a.appraisal_template_type = .ninebox →
        (a.onchange_evaluation_type_ids origin).ninebox_performance_line_ids = [] ∧
        (a.onchange_evaluation_type_ids origin).ninebox_potential_line_ids = [] ∧
        (a.onchange_evaluation_type_ids origin).ninebox_criteria_loaded = false ∧
        (a.onchange_evaluation_type_ids origin).criteria_loaded = false ∧
        (a.onchange_evaluation_type_ids origin).okr_line_ids = a.okr_line_ids ∧
        (a.onchange_evaluation_type_ids origin).okr_criteria_loaded =
          a.okr_criteria_loaded))) := by
  constructor
  · unfold Appraisal.onchange_employee_id_badge
    cases ha : a.employee_id with
    | none => exact clear_then_detect w _
    | some e =>
      dsimp only
      split_ifs <;> exact clear_then_detect w _
  · intro hl ho
    constructor
    · intro ht
      unfold Appraisal.onchange_evaluation_type_ids
      rw [if_pos ⟨hl, ho⟩, if_pos ht]
      simp
    · intro ht
      unfold Appraisal.onchange_evaluation_type_ids
      rw [if_pos ⟨hl, ho⟩, if_neg (by rw [ht]; exact fun hc => by cases hc),
        if_pos ht]
      simp

/-- Witness for C9 (amended) at the sample 9-box appraisal: an employee
change clears everything, an evaluation-type change clears the 9-box lines
and resets `criteria_loaded`. -/
theorem C9_criteria_clearing_witness :
    (sampleAppraisal.onchange_employee_id_badge sampleWorld).okr_line_ids = [] ∧
    (sampleAppraisal.onchange_evaluation_type_ids [sampleEvalType]).ninebox_performance_line_ids
      = [] ∧
    (sampleAppraisal.onchange_evaluation_type_ids [sampleEvalType]).criteria_loaded = false :=
  ⟨(C9_criteria_clearing sampleWorld sampleAppraisal [sampleEvalType]).1.1,
   (((C9_criteria_clearing sampleWorld sampleAppraisal [sampleEvalType]).2 rfl
      (by decide)).2 rfl).1,
   (((C9_criteria_clearing sampleWorld sampleAppraisal [sampleEvalType]).2 rfl
      (by decide)).2 rfl).2.2.2.1⟩

/-- Counterexample to C9 as stated: after an evaluation-type change on the
mixed appraisal, the 9-box performance line and the
`ninebox_criteria_loaded` flag survive, so the change does not delete all
previously loaded criteria lines nor reset all three flags. -/
theorem C9_counterexample :
    ¬ ((mixedAppraisal.onchange_evaluation_type_ids [sampleEvalType]).okr_line_ids = [] ∧
       (mixedAppraisal.onchange_evaluation_type_ids [sampleEvalType]).ninebox_performance_line_ids = [] ∧
       (mixedAppraisal.onchange_evaluation_type_ids [sampleEvalType]).ninebox_potential_line_ids = [] ∧
       (mixedAppraisal.onchange_evaluation_type_ids [sampleEvalType]).criteria_loaded = false ∧
       (mixedAppraisal.onchange_evaluation_type_ids [sampleEvalType]).okr_criteria_loaded = false ∧
       (mixedAppraisal.onchange_evaluation_type_ids [sampleEvalType]).ninebox_criteria_loaded = false) := by
  decide

/-- C1, amended: generating the spreadsheet and parsing it back leaves
every actual_value unchanged whenever each stored actual_value is an exact
multiple of 1/100 (the sheet holds values rounded to 2 decimals, so a value
with more decimals comes back as its rounding); and a write-back occurs
only when the parsed cell value differs from the stored one by more than
0.001. The resulting line list is the sequence-sorted presentation, which
is also the ordering of the one2many (`_order = 'sequence, id'`). -/
theorem C1_spreadsheet_roundtrip (a : Appraisal)
    (h2dp : ∀ l ∈ a.okr_line_ids, ∃ n : ℤ, 100 * l.actual_value = (n : ℚ)) :
    (a.sync_okr_from_spreadsheet a.generate_okr_spreadsheet).okr_line_ids
      = sortBySeq OkrLine.sequence a.okr_line_ids ∧
    (∀ (v : ℚ) (l : OkrLine),
      syncActualOkr v l = l ∨
      (|l.actual_value - v| > 1 / 1000 ∧ syncActualOkr v l = { l with actual_value := v })) := by
  constructor
  · rw [sync_generate_okr]
    have hfix : ∀ l ∈ sortBySeq OkrLine.sequence a.okr_line_ids,
        syncActualOkr (round2q l.actual_value) l = id l := by
      intro l hl
      obtain ⟨n, hn⟩ := h2dp l ((mem_sortBySeq OkrLine.sequence l a.okr_line_ids).mp hl)
      rw [round2q_fixed l.actual_value n hn]
      unfold syncActualOkr
      rw [if_neg (by rw [sub_self, abs_zero]; norm_num)]
      rfl
    rw [List.map_congr_left hfix, List.map_id]
  · intro v l
    unfold syncActualOkr
    split_ifs with h
    · exact Or.inr ⟨h, rfl⟩
    · exact Or.inl rfl

/-- Witness for C1 (amended) at a concrete one-line appraisal with a
two-decimal actual value. -/
theorem C1_spreadsheet_roundtrip_witness :
    (cleanAppraisal.sync_okr_from_spreadsheet
        cleanAppraisal.generate_okr_spreadsheet).okr_line_ids
      = sortBySeq OkrLine.sequence cleanAppraisal.okr_line_ids :=
  (C1_spreadsheet_roundtrip cleanAppraisal (by
    intro l hl
    have hl' : l ∈ [sampleOkrLine] := hl
    rw [List.mem_singleton] at hl'
    subst hl'
    exact ⟨200, by norm_num [sampleOkrLine]⟩)).1

/-- Counterexample to C1 as stated: the appraisal whose only line has
actual value 5.678 does not round-trip. The generated sheet holds "5.68",
which parses back to 5.68, differs from 5.678 by 0.002 > 0.001, and is
written back. -/
theorem C1_roundtrip_counterexample :
    ¬ ((roundtripAppraisal.sync_okr_from_spreadsheet
          roundtripAppraisal.generate_okr_spreadsheet).okr_line_ids.map OkrLine.actual_value
        = roundtripAppraisal.okr_line_ids.map OkrLine.actual_value) := by
  have hfloor : ⌊(100 * (5678 / 1000 : ℚ))⌋ = 567 := by
    apply Int.floor_eq_iff.mpr
    constructor <;> norm_num
  have h1 : rnd2 (5678 / 1000 : ℚ) = 568 := by
    unfold rnd2 roundHalfEven
    dsimp only
    rw [hfloor]
    rw [if_neg (by norm_num), if_pos (by norm_num)]
    decide
  have h2 : round2q (5678 / 1000 : ℚ) = 568 / 100 := by
    unfold round2q
    rw [h1]
    norm_num
  rw [sync_generate_okr]
  have hsort : sortBySeq OkrLine.sequence roundtripAppraisal.okr_line_ids
      = [roundtripLine] := rfl
  rw [hsort]
  simp only [List.map_cons, List.map_nil]
  have hact : roundtripLine.actual_value = 5678 / 1000 := rfl
  rw [hact, h2]
  have habs : |roundtripLine.actual_value - 568 / 100| = 1 / 500 := by
    rw [hact, show (5678 / 1000 : ℚ) - 568 / 100 = -(1 / 500) by norm_num, abs_neg,
      abs_of_nonneg (by norm_num)]
  unfold syncActualOkr
  rw [if_pos (by rw [habs]; norm_num)]
  intro hcontra
  have hlist : roundtripAppraisal.okr_line_ids.map OkrLine.actual_value
      = [(5678 / 1000 : ℚ)] := rfl
  rw [hlist] at hcontra
  have hx : (568 / 100 : ℚ) = 5678 / 1000 := by simpa using hcontra
  norm_num at hx

/-- C10: spreadsheet parsing is total. A missing Actual cell parses as 0
(the default content "0"); an Actual cell whose content does not parse as a
number (a formula or text, witnessed concretely by the generated formula
string and by plain text) contributes 0.0 instead of an error; and the
write-back of a parsed 0 touches a line (of any of the three kinds) exactly
when its stored actual value differs from 0 by more than 0.001. -/
theorem C10_parse_totality :
    (∀ (cells : List (CellRef × Cell)) (r : Nat),
      cells.find? (fun p => decide (p.1 = (("G", r) : CellRef))) = none →
      actualValueFromSheet cells r = 0) ∧
    (∀ (cells : List (CellRef × Cell)) (r : Nat) (c : Cell),
      (cells.find? (fun p => decide (p.1 = (("G", r) : CellRef)))).map Prod.snd = some c →
      pyFloat (c.content.getD "0") = none →
      actualValueFromSheet cells r = 0) ∧
    (∀ l : OkrLine, syncActualOkr 0 l
      = if |l.actual_value| > 1 / 1000 then { l with actual_value := 0 } else l) ∧
    (∀ l : NineboxPerformanceLine, syncActualPerf 0 l
      = if |l.actual_value| > 1 / 1000 then { l with actual_value := 0 } else l) ∧
    (∀ l : NineboxPotentialLine, syncActualPot 0 l
      = if |l.actual_value| > 1 / 1000 then { l with actual_value := 0 } else l) ∧
    pyFloat "=IF(F2>0, G2/F2*100, 0)" = none ∧
    pyFloat "84% done" = none := by
  refine ⟨?_, ?_, ?_, ?_, ?_, ?_, ?_⟩
  · intro cells r hfind
    unfold actualValueFromSheet cellContent
    rw [hfind, Option.map_none']
    rw [pyFloat_zero]
    rfl
  · intro cells r c hfind hparse
    unfold actualValueFromSheet cellContent
    rw [hfind, hparse]
    rfl
  · intro l
    unfold syncActualOkr
    rw [sub_zero]
  · intro l
    unfold syncActualPerf
    rw [sub_zero]
  · intro l
    unfold syncActualPot
    rw [sub_zero]
  · decide
  · decide

/-- Witness for C10 at concrete inputs: an empty cell map and the sample
OKR line. -/
theorem C10_parse_totality_witness :
    actualValueFromSheet [] 2 = 0 ∧
    syncActualOkr 0 sampleOkrLine
      = if |sampleOkrLine.actual_value| > 1 / 1000 then
          { sampleOkrLine with actual_value := 0 }
        else sampleOkrLine :=
  ⟨C10_parse_totality.1 [] 2 rfl, C10_parse_totality.2.2.1 sampleOkrLine⟩

end HrAppraisal
